import Mathlib

/-!
Verification of the human_activity_detection repository core:
the IMU-only Madgwick orientation filter (src/modules/madgwick.py) and the
classifier cascade / voting aggregator inside get_prediction (src/modules/main.py).
Floating-point values are modelled as real numbers; Python exceptions
(a failing sensor read, a ZeroDivisionError) are modelled with Option.
-/

namespace HAR

/-- math.radians: convert degrees to radians. -/
noncomputable def radians (x : ℝ) : ℝ := x * (Real.pi / 180)

/-- math.degrees: convert radians to degrees. -/
noncomputable def degrees (x : ℝ) : ℝ := x * 180 / Real.pi

/-- math.copysign x s: the magnitude of x with the sign of s (sign of zero is positive). -/
noncomputable def copysign (x s : ℝ) : ℝ := if s < 0 then -|x| else |x|

/-- Euclidean norm of a 3-vector, as written in madgwick.py line 20. -/
noncomputable def norm3 (x y z : ℝ) : ℝ := Real.sqrt (x * x + y * y + z * z)

/-- Euclidean norm of a 4-vector, as written in madgwick.py lines 44 and 65. -/
noncomputable def norm4 (a b c d : ℝ) : ℝ := Real.sqrt (a * a + b * b + c * c + d * d)

/-- The Madgwick filter object: fixed gain beta and the four quaternion components. -/
structure Madgwick where
  beta : ℝ
  q0 : ℝ
  q1 : ℝ
  q2 : ℝ
  q3 : ℝ

/-- Madgwick(beta): the constructor with its default quaternion (1, 0, 0, 0). -/
noncomputable def Madgwick.init (beta : ℝ) : Madgwick := ⟨beta, 1, 0, 0, 0⟩

/-- Residual f1 of the accelerometer objective, madgwick.py line 35. -/
def grad_f1 (q0 q1 q2 q3 ax : ℝ) : ℝ := 2 * q1 * q3 - 2 * q0 * q2 - ax

/-- Residual f2, madgwick.py line 36. -/
def grad_f2 (q0 q1 q2 q3 ay : ℝ) : ℝ := 2 * q0 * q1 + 2 * q2 * q3 - ay

/-- Residual f3, madgwick.py line 37. -/
def grad_f3 (q1 q2 az : ℝ) : ℝ := 1 - 2 * q1 * q1 - 2 * q2 * q2 - az

/-- Corrective term s0 exactly as computed by the code, madgwick.py line 39. -/
def grad_s0 (q0 q1 q2 q3 ax ay az : ℝ) : ℝ :=
  -(2 * q2) * grad_f1 q0 q1 q2 q3 ax + 2 * q1 * grad_f3 q1 q2 az

/-- Corrective term s1 exactly as computed by the code, madgwick.py line 40. -/
def grad_s1 (q0 q1 q2 q3 ax ay az : ℝ) : ℝ :=
  2 * q3 * grad_f1 q0 q1 q2 q3 ax + 2 * q0 * grad_f3 q1 q2 az
    - 4 * q1 * grad_f2 q0 q1 q2 q3 ay

/-- Corrective term s2 exactly as computed by the code, madgwick.py line 41. -/
def grad_s2 (q0 q1 q2 q3 ax ay az : ℝ) : ℝ :=
  -(2 * q0) * grad_f1 q0 q1 q2 q3 ax + 2 * q3 * grad_f2 q0 q1 q2 q3 ay
    - 4 * q2 * grad_f3 q1 q2 az

/-- Corrective term s3 exactly as computed by the code, madgwick.py line 42. -/
def grad_s3 (q0 q1 q2 q3 ax ay az : ℝ) : ℝ :=
  2 * q1 * grad_f1 q0 q1 q2 q3 ax + 2 * q2 * grad_f2 q0 q1 q2 q3 ay

/-- Magnitude of the corrective gradient vector, madgwick.py line 44. -/
noncomputable def gradNorm (q0 q1 q2 q3 ax ay az : ℝ) : ℝ :=
  norm4 (grad_s0 q0 q1 q2 q3 ax ay az) (grad_s1 q0 q1 q2 q3 ax ay az)
    (grad_s2 q0 q1 q2 q3 ax ay az) (grad_s3 q0 q1 q2 q3 ax ay az)

/-- Quaternion component 0 after integrating the rate of change, madgwick.py
lines 53 and 59; the gyro arguments are already in radians. -/
noncomputable def integ0 (beta q0 q1 q2 q3 gx gy gz ax ay az dt : ℝ) : ℝ :=
  q0 + (0.5 * (-q1 * gx - q2 * gy - q3 * gz)
    - beta * (grad_s0 q0 q1 q2 q3 ax ay az / gradNorm q0 q1 q2 q3 ax ay az)) * dt

/-- Quaternion component 1 after integration, madgwick.py lines 54 and 60. -/
noncomputable def integ1 (beta q0 q1 q2 q3 gx gy gz ax ay az dt : ℝ) : ℝ :=
  q1 + (0.5 * (q0 * gx + q2 * gz - q3 * gy)
    - beta * (grad_s1 q0 q1 q2 q3 ax ay az / gradNorm q0 q1 q2 q3 ax ay az)) * dt

/-- Quaternion component 2 after integration, madgwick.py lines 55 and 61. -/
noncomputable def integ2 (beta q0 q1 q2 q3 gx gy gz ax ay az dt : ℝ) : ℝ :=
  q2 + (0.5 * (q0 * gy - q1 * gz + q3 * gx)
    - beta * (grad_s2 q0 q1 q2 q3 ax ay az / gradNorm q0 q1 q2 q3 ax ay az)) * dt

/-- Quaternion component 3 after integration, madgwick.py lines 56 and 62. -/
noncomputable def integ3 (beta q0 q1 q2 q3 gx gy gz ax ay az dt : ℝ) : ℝ :=
  q3 + (0.5 * (q0 * gz + q1 * gy - q2 * gx)
    - beta * (grad_s3 q0 q1 q2 q3 ax ay az / gradNorm q0 q1 q2 q3 ax ay az)) * dt

/-- Magnitude of the integrated quaternion, madgwick.py line 65. -/
noncomputable def integNorm (beta q0 q1 q2 q3 gx gy gz ax ay az dt : ℝ) : ℝ :=
  norm4 (integ0 beta q0 q1 q2 q3 gx gy gz ax ay az dt)
    (integ1 beta q0 q1 q2 q3 gx gy gz ax ay az dt)
    (integ2 beta q0 q1 q2 q3 gx gy gz ax ay az dt)
    (integ3 beta q0 q1 q2 q3 gx gy gz ax ay az dt)

/-- updateIMU, madgwick.py lines 11-71. A zero accelerometer magnitude (line 21)
or zero gradient magnitude (line 45) returns with the state unchanged. The final
normalization (line 66) has no zero guard: in Python a zero magnitude there raises
ZeroDivisionError before the state is assigned, modelled as none. -/
noncomputable def Madgwick.updateIMU (m : Madgwick) (gx gy gz ax ay az dt : ℝ) :
    Option Madgwick :=
  if norm3 ax ay az = 0 then some m
  else if gradNorm m.q0 m.q1 m.q2 m.q3 (ax / norm3 ax ay az) (ay / norm3 ax ay az)
      (az / norm3 ax ay az) = 0 then some m
  else if integNorm m.beta m.q0 m.q1 m.q2 m.q3 (radians gx) (radians gy) (radians gz)
      (ax / norm3 ax ay az) (ay / norm3 ax ay az) (az / norm3 ax ay az) dt = 0 then none
  else some
    ⟨m.beta,
     integ0 m.beta m.q0 m.q1 m.q2 m.q3 (radians gx) (radians gy) (radians gz)
        (ax / norm3 ax ay az) (ay / norm3 ax ay az) (az / norm3 ax ay az) dt /
      integNorm m.beta m.q0 m.q1 m.q2 m.q3 (radians gx) (radians gy) (radians gz)
        (ax / norm3 ax ay az) (ay / norm3 ax ay az) (az / norm3 ax ay az) dt,
     integ1 m.beta m.q0 m.q1 m.q2 m.q3 (radians gx) (radians gy) (radians gz)
        (ax / norm3 ax ay az) (ay / norm3 ax ay az) (az / norm3 ax ay az) dt /
      integNorm m.beta m.q0 m.q1 m.q2 m.q3 (radians gx) (radians gy) (radians gz)
        (ax / norm3 ax ay az) (ay / norm3 ax ay az) (az / norm3 ax ay az) dt,
     integ2 m.beta m.q0 m.q1 m.q2 m.q3 (radians gx) (radians gy) (radians gz)
        (ax / norm3 ax ay az) (ay / norm3 ax ay az) (az / norm3 ax ay az) dt /
      integNorm m.beta m.q0 m.q1 m.q2 m.q3 (radians gx) (radians gy) (radians gz)
        (ax / norm3 ax ay az) (ay / norm3 ax ay az) (az / norm3 ax ay az) dt,
     integ3 m.beta m.q0 m.q1 m.q2 m.q3 (radians gx) (radians gy) (radians gz)
        (ax / norm3 ax ay az) (ay / norm3 ax ay az) (az / norm3 ax ay az) dt /
      integNorm m.beta m.q0 m.q1 m.q2 m.q3 (radians gx) (radians gy) (radians gz)
        (ax / norm3 ax ay az) (ay / norm3 ax ay az) (az / norm3 ax ay az) dt⟩

/-- atan2 with the usual C library semantics, used by math.atan2. -/
noncomputable def atan2 (y x : ℝ) : ℝ :=
  if 0 < x then Real.arctan (y / x)
  else if x < 0 then
    (if 0 ≤ y then Real.arctan (y / x) + Real.pi else Real.arctan (y / x) - Real.pi)
  else if 0 < y then Real.pi / 2
  else if y < 0 then -(Real.pi / 2)
  else 0

/-- getEuler, madgwick.py lines 73-89: [roll, pitch, yaw] in degrees. -/
noncomputable def Madgwick.getEuler (m : Madgwick) : List ℝ :=
  [degrees (atan2 (2 * (m.q0 * m.q1 + m.q2 * m.q3))
      (1 - 2 * (m.q1 * m.q1 + m.q2 * m.q2))),
   if 1 ≤ |2 * (m.q0 * m.q2 - m.q3 * m.q1)| then
     degrees (copysign (Real.pi / 2) (2 * (m.q0 * m.q2 - m.q3 * m.q1)))
   else degrees (Real.arcsin (2 * (m.q0 * m.q2 - m.q3 * m.q1))),
   degrees (atan2 (2 * (m.q0 * m.q3 + m.q1 * m.q2))
      (1 - 2 * (m.q2 * m.q2 + m.q3 * m.q3)))]

/-- getGravity, madgwick.py lines 91-99. -/
def Madgwick.getGravity (m : Madgwick) : List ℝ :=
  [2 * (m.q1 * m.q3 - m.q0 * m.q2),
   2 * (m.q0 * m.q1 + m.q2 * m.q3),
   m.q0 * m.q0 - m.q1 * m.q1 - m.q2 * m.q2 + m.q3 * m.q3]

/-- The five opaque scoring collaborators used by main.py lines 245-256. -/
structure Models where
  motion : List ℝ → ℝ × ℝ
  steady : List ℝ → ℝ × ℝ × ℝ
  unsteady : List ℝ → ℝ × ℝ
  staircase : List ℝ → ℝ × ℝ
  surface : List ℝ → ℝ × ℝ

/-- The decision cascade over one feature vector, main.py lines 245-256. -/
noncomputable def cascade (M : Models) (X : List ℝ) : List ℝ :=
  if (M.motion X).1 ≥ (M.motion X).2 then
    [0, 0, 0, 0, (M.steady X).1, (M.steady X).2.1, (M.steady X).2.2]
  else if (M.unsteady X).1 ≤ (M.unsteady X).2 then
    [0, 0, (M.staircase X).1, (M.staircase X).2, 0, 0, 0]
  else
    [(M.surface X).1, (M.surface X).2, 0, 0, 0, 0, 0]

/-- Python max over a list, as applied to the nonempty score and tally lists
(the default value is never reached on the code paths modelled here). -/
def maxOf {α : Type} [LinearOrder α] [Inhabited α] : List α → α
  | [] => default
  | x :: xs => xs.foldl max x

/-- The tally update, main.py lines 259-262: every slot whose score equals
the maximum of the score vector is incremented. -/
noncomputable def tallyUpdate (category : List ℕ) (score : List ℝ) : List ℕ :=
  List.zipWith (fun c s => if s = maxOf score then c + 1 else c) category score

/-- Winner resolution, main.py lines 272-277: the first index whose tally
equals the maximum tally. -/
def resolveIndex (category : List ℕ) : ℕ :=
  category.findIdx (fun c => c == maxOf category)

/-- The activity mapping with its Unknown default, main.py lines 190-198 and 280. -/
def mapper (i : ℕ) : String :=
  if i = 0 then "Walking" else if i = 1 then "Jogging" else if i = 2 then "Downstairs"
  else if i = 3 then "Upstairs" else if i = 4 then "Sitting" else if i = 5 then "Standing"
  else if i = 6 then "Sleeping" else "Unknown"

/-- Resolution of a completed batch to a label, main.py lines 271-280. -/
def finishBatch (category : List ℕ) : String := mapper (resolveIndex category)

/-- One raw sensor read, main.py line 236, together with the time.ticks_ms value
of the iteration that read it. -/
structure RawSample where
  gx : ℝ
  gy : ℝ
  gz : ℝ
  ax : ℝ
  ay : ℝ
  az : ℝ
  mx : ℝ
  my : ℝ
  mz : ℝ
  temp : ℝ
  t : Int

/-- The filter object the loop body passes to updateIMU for a sample: main.py
line 237 constructs Madgwick(beta=0.1) afresh inside the loop, for every sample,
independently of any previous sample. -/
noncomputable def filterBeforeUpdate (smp : RawSample) : Madgwick := Madgwick.init 0.1

/-- One iteration of the sampling loop, main.py lines 235-265: dt from the
timestamp difference in ms divided by 1000, the per-sample filter update, the
feature vector (Euler, gravity, then the ten raw readings), the cascade, and the
tally update. A none result models an exception reaching the except clause. -/
noncomputable def processSample (M : Models) (smp : RawSample) (lastTime : Int)
    (category : List ℕ) : Option (List ℕ) :=
  match (filterBeforeUpdate smp).updateIMU smp.gx smp.gy smp.gz smp.ax smp.ay smp.az
      (((smp.t - lastTime : Int) : ℝ) / 1000) with
  | none => none
  | some m =>
      some (tallyUpdate category (cascade M (m.getEuler ++ m.getGravity ++
        [smp.gx, smp.gy, smp.gz, smp.ax, smp.ay, smp.az, smp.mx, smp.my, smp.mz,
         smp.temp])))

/-- The sampling loop, main.py lines 234-269: the fuel is the number of samples
still to collect, the list holds the pending sensor reads (none models a read
that raises), the Int is the previous timestamp, the last argument the tally. -/
noncomputable def runBatch (M : Models) :
    ℕ → List (Option RawSample) → Int → List ℕ → Option (List ℕ)
  | 0, _, _, category => some category
  | _ + 1, [], _, _ => none
  | _ + 1, none :: _, _, _ => none
  | n + 1, some smp :: rest, lastTime, category =>
      match processSample M smp lastTime category with
      | none => none
      | some category2 => runBatch M n rest smp.t category2

/-- get_prediction, main.py lines 204-310: the sensors_initialized guard, the
device-state guard (the state after the button-edge handling, owned by an
external collaborator), then a 30-sample voting batch resolved via the mapper. -/
noncomputable def getPrediction (sensorsInitialized deviceOn : Bool) (M : Models)
    (lastTime : Int) (reads : List (Option RawSample)) : String :=
  if sensorsInitialized = false then "Sensor Error"
  else if deviceOn = false then "Device OFF"
  else
    match runBatch M 30 reads lastTime (List.replicate 7 0) with
    | none => "Sensor Error"
    | some category => finishBatch category

/-- Corrective term s0 as the specification states it: the transposed-Jacobian
product of the standard gradient-descent correction. -/
def specGrad_s0 (q0 q1 q2 q3 ax ay az : ℝ) : ℝ :=
  -(2 * q2) * grad_f1 q0 q1 q2 q3 ax + 2 * q1 * grad_f2 q0 q1 q2 q3 ay

/-- Corrective term s1 as the specification states it. -/
def specGrad_s1 (q0 q1 q2 q3 ax ay az : ℝ) : ℝ :=
  2 * q3 * grad_f1 q0 q1 q2 q3 ax + 2 * q0 * grad_f2 q0 q1 q2 q3 ay
    - 4 * q1 * grad_f3 q1 q2 az

/-- Corrective term s2 as the specification states it. -/
def specGrad_s2 (q0 q1 q2 q3 ax ay az : ℝ) : ℝ :=
  -(2 * q0) * grad_f1 q0 q1 q2 q3 ax + 2 * q3 * grad_f2 q0 q1 q2 q3 ay
    - 4 * q2 * grad_f3 q1 q2 az

/-- Corrective term s3 as the specification states it. -/
def specGrad_s3 (q0 q1 q2 q3 ax ay az : ℝ) : ℝ :=
  2 * q1 * grad_f1 q0 q1 q2 q3 ax + 2 * q2 * grad_f2 q0 q1 q2 q3 ay

/-- Constant collaborators with a tie on the motion pair. -/
noncomputable def modelsSteadyTie : Models :=
  ⟨fun _ => (1, 1), fun _ => (7, 8, 9), fun _ => (0, 0), fun _ => (0, 0), fun _ => (0, 0)⟩

/-- Constant collaborators routing to the unsteady side with a tie there. -/
noncomputable def modelsStairTie : Models :=
  ⟨fun _ => (0, 1), fun _ => (0, 0, 0), fun _ => (2, 2), fun _ => (5, 6), fun _ => (0, 0)⟩

/-- Constant collaborators that route every sample to the steady branch with the
first steady sub-score winning. -/
noncomputable def modelsSit : Models :=
  ⟨fun _ => (1, 0), fun _ => (1, 0, 0), fun _ => (0, 0), fun _ => (0, 0), fun _ => (0, 0)⟩

lemma foldl_max_init_le {α : Type} [LinearOrder α] :
    ∀ (l : List α) (a : α), a ≤ l.foldl max a
  | [], a => le_refl a
  | b :: t, a => le_trans (le_max_left a b) (foldl_max_init_le t (max a b))

lemma le_foldl_max {α : Type} [LinearOrder α] :
    ∀ (l : List α) (a x : α), x ∈ l → x ≤ l.foldl max a
  | [], _, x, hx => absurd hx (List.not_mem_nil x)
  | b :: t, a, x, hx => by
      rcases List.mem_cons.mp hx with h | h
      · subst h
        exact le_trans (le_max_right a x) (foldl_max_init_le t (max a x))
      · exact le_foldl_max t (max a b) x h

lemma foldl_max_mem {α : Type} [LinearOrder α] :
    ∀ (l : List α) (a : α), l.foldl max a ∈ a :: l
  | [], a => List.mem_cons_self a []
  | b :: t, a => by
      have h := foldl_max_mem t (max a b)
      rw [List.foldl_cons]
      rcases List.mem_cons.mp h with h1 | h1
      · rcases max_choice a b with h2 | h2
        · rw [h1, h2]; exact List.mem_cons_self _ _
        · rw [h1, h2]; exact List.mem_cons_of_mem _ (List.mem_cons_self _ _)
      · exact List.mem_cons_of_mem _ (List.mem_cons_of_mem _ h1)

lemma maxOf_mem {α : Type} [LinearOrder α] [Inhabited α] {l : List α} (h : l ≠ []) :
    maxOf l ∈ l := by
  cases l with
  | nil => exact absurd rfl h
  | cons x xs => exact foldl_max_mem xs x

lemma le_maxOf {α : Type} [LinearOrder α] [Inhabited α] {l : List α} {x : α}
    (hx : x ∈ l) : x ≤ maxOf l := by
  cases l with
  | nil => exact absurd hx (List.not_mem_nil x)
  | cons y ys =>
      rcases List.mem_cons.mp hx with h | h
      · subst h; exact foldl_max_init_le ys x
      · exact le_foldl_max ys y x h

lemma getD_zipWith {α β γ : Type} (f : α → β → γ) (l : List α) (l2 : List β)
    (dc : γ) (da : α) (db : β) (i : ℕ) (h1 : i < l.length) (h2 : i < l2.length) :
    (List.zipWith f l l2).getD i dc = f (l.getD i da) (l2.getD i db) := by
  rw [List.getD_eq_getElem _ _ (by rw [List.length_zipWith]; exact lt_min h1 h2),
    List.getD_eq_getElem _ _ h1, List.getD_eq_getElem _ _ h2, List.getElem_zipWith]

lemma cascade_length (M : Models) (X : List ℝ) : (cascade M X).length = 7 := by
  unfold cascade; split_ifs <;> rfl

lemma tallyUpdate_length (category : List ℕ) (score : List ℝ) :
    (tallyUpdate category score).length = min category.length score.length := by
  unfold tallyUpdate; exact List.length_zipWith _ _ _

lemma processSample_length (M : Models) (smp : RawSample) (lt : Int)
    (category category2 : List ℕ) (hlen : category.length = 7)
    (h : processSample M smp lt category = some category2) : category2.length = 7 := by
  unfold processSample at h
  cases hu : (filterBeforeUpdate smp).updateIMU smp.gx smp.gy smp.gz smp.ax smp.ay
      smp.az (((smp.t - lt : Int) : ℝ) / 1000) with
  | none => rw [hu] at h; simp at h
  | some m =>
      rw [hu] at h
      simp only [Option.some.injEq] at h
      rw [← h, tallyUpdate_length, cascade_length, hlen]
      exact min_self 7

lemma runBatch_length (M : Models) :
    ∀ (n : ℕ) (reads : List (Option RawSample)) (lastTime : Int)
      (category category2 : List ℕ), category.length = 7 →
      runBatch M n reads lastTime category = some category2 → category2.length = 7 := by
  intro n
  induction n with
  | zero =>
      intro reads lt cat cat2 hlen h
      simp only [runBatch, Option.some.injEq] at h
      rw [← h]; exact hlen
  | succ n ih =>
      intro reads lt cat cat2 hlen h
      cases reads with
      | nil => simp [runBatch] at h
      | cons r rest =>
          cases r with
          | none => simp [runBatch] at h
          | some smp =>
              simp only [runBatch] at h
              cases hp : processSample M smp lt cat with
              | none => rw [hp] at h; simp at h
              | some cat1 =>
                  rw [hp] at h
                  exact ih rest smp.t cat1 cat2
                    (processSample_length M smp lt cat cat1 hlen hp) h

/-- C3: the corrective terms computed by updateIMU do not equal the standard
transposed-Jacobian gradient formulas stated by the specification: the code
interchanges the residuals f2 and f3 inside s0 and s1 (madgwick.py lines 39-40),
diverging at the quaternion (1,0,0,0) with normalized accelerometer (0,1,0)
where the code yields s1 = 2 while the standard formula yields s1 = -2, and at
the quaternion (0,1,0,0) with normalized accelerometer (0,0,1) for s0; only the
s2 and s3 formulas agree with the specification. -/
theorem grad_terms_diverge_from_spec :
    grad_s1 1 0 0 0 0 1 0 = 2 ∧ specGrad_s1 1 0 0 0 0 1 0 = -2 ∧
    grad_s1 1 0 0 0 0 1 0 ≠ specGrad_s1 1 0 0 0 0 1 0 ∧
    grad_s0 0 1 0 0 0 0 1 = -4 ∧ specGrad_s0 0 1 0 0 0 0 1 = 0 ∧
    (∀ q0 q1 q2 q3 ax ay az : ℝ,
      grad_s2 q0 q1 q2 q3 ax ay az = specGrad_s2 q0 q1 q2 q3 ax ay az ∧
      grad_s3 q0 q1 q2 q3 ax ay az = specGrad_s3 q0 q1 q2 q3 ax ay az) := by
  refine ⟨by norm_num [grad_s1, grad_f1, grad_f2, grad_f3],
    by norm_num [specGrad_s1, grad_f1, grad_f2, grad_f3], ?_,
    by norm_num [grad_s0, grad_f1, grad_f3],
    by norm_num [specGrad_s0, grad_f1, grad_f2],
    fun q0 q1 q2 q3 ax ay az => ⟨rfl, rfl⟩⟩
  norm_num [grad_s1, specGrad_s1, grad_f1, grad_f2, grad_f3]

/-- C6: the cascade takes the steady branch exactly when the first motion score is
at least the second (ties steady), with slots 0-3 zero and slots 4-6 the steady
sub-scores; otherwise it takes the staircase branch exactly when the first unsteady
score is at most the second (ties staircase), with the staircase sub-scores in
slots 2-3 and all other slots zero, and else the surface branch with the surface
sub-scores in slots 0-1 and all other slots zero. -/
theorem cascade_routing (M : Models) (X : List ℝ) :
    ((M.motion X).1 ≥ (M.motion X).2 →
      cascade M X = [0, 0, 0, 0, (M.steady X).1, (M.steady X).2.1, (M.steady X).2.2]) ∧
    (¬ (M.motion X).1 ≥ (M.motion X).2 →
      ((M.unsteady X).1 ≤ (M.unsteady X).2 →
        cascade M X = [0, 0, (M.staircase X).1, (M.staircase X).2, 0, 0, 0]) ∧
      (¬ (M.unsteady X).1 ≤ (M.unsteady X).2 →
        cascade M X = [(M.surface X).1, (M.surface X).2, 0, 0, 0, 0, 0])) := by
  unfold cascade
  refine ⟨fun h => by rw [if_pos h], fun h => ⟨fun h2 => ?_, fun h2 => ?_⟩⟩
  · rw [if_neg h, if_pos h2]
  · rw [if_neg h, if_neg h2]

/-- C6 witness: a motion tie (1,1) takes the steady branch and an unsteady tie (2,2)
takes the staircase branch, at concrete collaborators. -/
theorem cascade_routing_witness :
    cascade modelsSteadyTie [] = [0, 0, 0, 0, 7, 8, 9] ∧
    cascade modelsStairTie [] = [0, 0, 5, 6, 0, 0, 0] := by
  constructor
  · exact (cascade_routing modelsSteadyTie []).1 (le_refl (1 : ℝ))
  · exact ((cascade_routing modelsStairTie []).2
      (by norm_num : ¬ (0 : ℝ) ≥ 1)).1 (by norm_num : (2 : ℝ) ≤ 2)

/-- C8: a zero-magnitude accelerometer, or a zero-magnitude corrective gradient
computed from the normalized accelerometer, makes updateIMU a no-op: the stored
quaternion state is returned unchanged and no error is surfaced. -/
theorem updateIMU_noop (m : Madgwick) (gx gy gz ax ay az dt : ℝ) :
    (norm3 ax ay az = 0 → m.updateIMU gx gy gz ax ay az dt = some m) ∧
    (gradNorm m.q0 m.q1 m.q2 m.q3 (ax / norm3 ax ay az) (ay / norm3 ax ay az)
        (az / norm3 ax ay az) = 0 →
      m.updateIMU gx gy gz ax ay az dt = some m) := by
  constructor
  · intro h; unfold Madgwick.updateIMU; rw [if_pos h]
  · intro h; unfold Madgwick.updateIMU
    by_cases h0 : norm3 ax ay az = 0
    · rw [if_pos h0]
    · rw [if_neg h0, if_pos h]

/-- C8 witness: accel (0,0,0) has zero magnitude, and at the identity quaternion the
gradient of accel (0,0,5) is zero; both calls return the state unchanged. -/
theorem updateIMU_noop_witness :
    norm3 0 0 0 = 0 ∧
    gradNorm (Madgwick.init 0.1).q0 (Madgwick.init 0.1).q1 (Madgwick.init 0.1).q2
      (Madgwick.init 0.1).q3 (0 / norm3 0 0 5) (0 / norm3 0 0 5) (5 / norm3 0 0 5) = 0 ∧
    (Madgwick.init 0.1).updateIMU 1 2 3 0 0 0 0.04 = some (Madgwick.init 0.1) ∧
    (Madgwick.init 0.1).updateIMU 0 0 0 0 0 5 0.04 = some (Madgwick.init 0.1) := by
  have h1 : norm3 0 0 0 = 0 := by
    unfold norm3; norm_num
  have h5 : norm3 0 0 5 = 5 := by
    unfold norm3
    rw [show (0 : ℝ) * 0 + 0 * 0 + 5 * 5 = 5 ^ 2 by norm_num]
    exact Real.sqrt_sq (by norm_num)
  have h2 : gradNorm (Madgwick.init 0.1).q0 (Madgwick.init 0.1).q1 (Madgwick.init 0.1).q2
      (Madgwick.init 0.1).q3 (0 / norm3 0 0 5) (0 / norm3 0 0 5) (5 / norm3 0 0 5) = 0 := by
    rw [h5]
    show gradNorm 1 0 0 0 (0 / 5) (0 / 5) (5 / 5) = 0
    unfold gradNorm norm4 grad_s0 grad_s1 grad_s2 grad_s3 grad_f1 grad_f2 grad_f3
    norm_num
  exact ⟨h1, h2, (updateIMU_noop (Madgwick.init 0.1) 1 2 3 0 0 0 0.04).1 h1,
    (updateIMU_noop (Madgwick.init 0.1) 0 0 0 0 0 5 0.04).2 h2⟩

lemma degrees_pi_div_two : degrees (Real.pi / 2) = 90 := by
  unfold degrees
  rw [eq_comm, eq_div_iff Real.pi_ne_zero]
  ring

lemma degrees_neg (x : ℝ) : degrees (-x) = -degrees x := by
  unfold degrees; ring

/-- C10: getEuler clamps pitch to +90 degrees when the arcsine argument is at least 1,
to -90 degrees when it is at most -1 (the sign of the argument selecting the
saturation value), and returns the degrees-converted arcsine otherwise. -/
theorem pitch_clamp (m : Madgwick) :
    (1 ≤ 2 * (m.q0 * m.q2 - m.q3 * m.q1) → m.getEuler.getD 1 0 = 90) ∧
    (2 * (m.q0 * m.q2 - m.q3 * m.q1) ≤ -1 → m.getEuler.getD 1 0 = -90) ∧
    (|2 * (m.q0 * m.q2 - m.q3 * m.q1)| < 1 →
      m.getEuler.getD 1 0 = degrees (Real.arcsin (2 * (m.q0 * m.q2 - m.q3 * m.q1)))) := by
  simp only [Madgwick.getEuler, List.getD_cons_succ, List.getD_cons_zero]
  refine ⟨fun h => ?_, fun h => ?_, fun h => ?_⟩
  · rw [if_pos (le_trans h (le_abs_self _))]
    unfold copysign
    rw [if_neg (not_lt.mpr (le_trans (by norm_num) h)),
      abs_of_pos (by positivity : (0 : ℝ) < Real.pi / 2)]
    exact degrees_pi_div_two
  · rw [if_pos (le_trans (by linarith) (neg_le_abs _))]
    unfold copysign
    rw [if_pos (by linarith), abs_of_pos (by positivity : (0 : ℝ) < Real.pi / 2),
      degrees_neg, degrees_pi_div_two]
  · rw [if_neg (not_le.mpr h)]

/-- C10 witness: at concrete quaternions the arcsine argument takes the values 2
(clamped to +90), -2 (clamped to -90) and 0 (not clamped). -/
theorem pitch_clamp_witness :
    (⟨1, 1, 0, 1, 0⟩ : Madgwick).getEuler.getD 1 0 = 90 ∧
    (⟨1, 1, 0, -1, 0⟩ : Madgwick).getEuler.getD 1 0 = -90 ∧
    (⟨1, 1, 0, 0, 0⟩ : Madgwick).getEuler.getD 1 0 =
      degrees (Real.arcsin (2 * ((1 : ℝ) * 0 - 0 * 0))) :=
  ⟨(pitch_clamp ⟨1, 1, 0, 1, 0⟩).1 (by norm_num : (1 : ℝ) ≤ 2 * (1 * 1 - 0 * 0)),
   (pitch_clamp ⟨1, 1, 0, -1, 0⟩).2.1 (by norm_num : 2 * ((1 : ℝ) * (-1) - 0 * 0) ≤ -1),
   (pitch_clamp ⟨1, 1, 0, 0, 0⟩).2.2 (by norm_num : |2 * ((1 : ℝ) * 0 - 0 * 0)| < 1)⟩

/-- C2: whenever the accelerometer magnitude and the computed gradient magnitude are
both nonzero and updateIMU completes (the unguarded final division does not raise),
the stored quaternion has norm exactly 1. -/
theorem updateIMU_unit_norm (m : Madgwick) (gx gy gz ax ay az dt : ℝ)
    (hacc : norm3 ax ay az ≠ 0)
    (hgrad : gradNorm m.q0 m.q1 m.q2 m.q3 (ax / norm3 ax ay az) (ay / norm3 ax ay az)
      (az / norm3 ax ay az) ≠ 0) :
    ∀ m2 : Madgwick, m.updateIMU gx gy gz ax ay az dt = some m2 →
      m2.q0 ^ 2 + m2.q1 ^ 2 + m2.q2 ^ 2 + m2.q3 ^ 2 = 1 := by
  intro m2 h
  unfold Madgwick.updateIMU at h
  rw [if_neg hacc, if_neg hgrad] at h
  set a := integ0 m.beta m.q0 m.q1 m.q2 m.q3 (radians gx) (radians gy) (radians gz)
    (ax / norm3 ax ay az) (ay / norm3 ax ay az) (az / norm3 ax ay az) dt with ha
  set b := integ1 m.beta m.q0 m.q1 m.q2 m.q3 (radians gx) (radians gy) (radians gz)
    (ax / norm3 ax ay az) (ay / norm3 ax ay az) (az / norm3 ax ay az) dt with hb
  set c := integ2 m.beta m.q0 m.q1 m.q2 m.q3 (radians gx) (radians gy) (radians gz)
    (ax / norm3 ax ay az) (ay / norm3 ax ay az) (az / norm3 ax ay az) dt with hc
  set d := integ3 m.beta m.q0 m.q1 m.q2 m.q3 (radians gx) (radians gy) (radians gz)
    (ax / norm3 ax ay az) (ay / norm3 ax ay az) (az / norm3 ax ay az) dt with hd
  have hin : integNorm m.beta m.q0 m.q1 m.q2 m.q3 (radians gx) (radians gy) (radians gz)
      (ax / norm3 ax ay az) (ay / norm3 ax ay az) (az / norm3 ax ay az) dt
      = norm4 a b c d := rfl
  rw [hin] at h
  by_cases hq : norm4 a b c d = 0
  · rw [if_pos hq] at h; exact absurd h (by simp)
  · rw [if_neg hq] at h
    simp only [Option.some.injEq] at h
    have hsum : norm4 a b c d ^ 2 = a * a + b * b + c * c + d * d := by
      unfold norm4
      exact Real.sq_sqrt (add_nonneg (add_nonneg (add_nonneg (mul_self_nonneg a)
        (mul_self_nonneg b)) (mul_self_nonneg c)) (mul_self_nonneg d))
    have hsumne : a * a + b * b + c * c + d * d ≠ 0 := by
      intro h0
      apply hq
      unfold norm4
      rw [h0, Real.sqrt_zero]
    rw [← h]
    show (a / norm4 a b c d) ^ 2 + (b / norm4 a b c d) ^ 2 + (c / norm4 a b c d) ^ 2
      + (d / norm4 a b c d) ^ 2 = 1
    rw [div_pow, div_pow, div_pow, div_pow, div_add_div_same, div_add_div_same,
      div_add_div_same, hsum]
    rw [show a ^ 2 + b ^ 2 + c ^ 2 + d ^ 2 = a * a + b * b + c * c + d * d by ring]
    exact div_self hsumne

lemma norm3_050 : norm3 0 5 0 = 5 := by
  unfold norm3
  rw [show (0 : ℝ) * 0 + 5 * 5 + 0 * 0 = 5 ^ 2 by norm_num]
  exact Real.sqrt_sq (by norm_num)

lemma gradNorm_identity_y : gradNorm 1 0 0 0 ((0 : ℝ) / 5) (5 / 5) (0 / 5) = 2 := by
  unfold gradNorm norm4 grad_s0 grad_s1 grad_s2 grad_s3 grad_f1 grad_f2 grad_f3
  norm_num
  rw [show (4 : ℝ) = 2 ^ 2 by norm_num]
  exact Real.sqrt_sq (by norm_num)

lemma integ0_identity_y :
    integ0 0.1 1 0 0 0 (radians 0) (radians 0) (radians 0) ((0 : ℝ) / 5) (5 / 5)
      (0 / 5) 10 = 1 := by
  unfold integ0
  rw [gradNorm_identity_y]
  unfold radians grad_s0 grad_f1 grad_f3
  norm_num

lemma integ1_identity_y :
    integ1 0.1 1 0 0 0 (radians 0) (radians 0) (radians 0) ((0 : ℝ) / 5) (5 / 5)
      (0 / 5) 10 = -1 := by
  unfold integ1
  rw [gradNorm_identity_y]
  unfold radians grad_s1 grad_f1 grad_f2 grad_f3
  norm_num

lemma integ2_identity_y :
    integ2 0.1 1 0 0 0 (radians 0) (radians 0) (radians 0) ((0 : ℝ) / 5) (5 / 5)
      (0 / 5) 10 = 0 := by
  unfold integ2
  rw [gradNorm_identity_y]
  unfold radians grad_s2 grad_f1 grad_f2 grad_f3
  norm_num

lemma integ3_identity_y :
    integ3 0.1 1 0 0 0 (radians 0) (radians 0) (radians 0) ((0 : ℝ) / 5) (5 / 5)
      (0 / 5) 10 = 0 := by
  unfold integ3
  rw [gradNorm_identity_y]
  unfold radians grad_s3 grad_f1 grad_f2
  norm_num

lemma norm4_sqrt_two : norm4 1 (-1) 0 0 = Real.sqrt 2 := by
  unfold norm4
  norm_num

lemma updateIMU_identity_y :
    (Madgwick.init 0.1).updateIMU 0 0 0 0 5 0 10
      = some ⟨0.1, 1 / Real.sqrt 2, -(1 / Real.sqrt 2), 0, 0⟩ := by
  unfold Madgwick.updateIMU Madgwick.init integNorm
  rw [norm3_050]
  rw [if_neg (by norm_num : ¬ (5 : ℝ) = 0)]
  rw [gradNorm_identity_y]
  rw [if_neg (by norm_num : ¬ (2 : ℝ) = 0)]
  rw [integ0_identity_y, integ1_identity_y, integ2_identity_y, integ3_identity_y,
    norm4_sqrt_two]
  rw [if_neg (Real.sqrt_ne_zero'.mpr (by norm_num : (0 : ℝ) < 2))]
  simp only [Option.some.injEq, Madgwick.mk.injEq, neg_div, zero_div]

/-- C2 witness: at the identity state, accel (0,5,0) and dt 10 have nonzero
accelerometer and gradient magnitudes, the call completes, and the stored
quaternion has norm 1. -/
theorem updateIMU_unit_norm_witness :
    norm3 0 5 0 ≠ 0 ∧
    gradNorm (Madgwick.init 0.1).q0 (Madgwick.init 0.1).q1 (Madgwick.init 0.1).q2
      (Madgwick.init 0.1).q3 (0 / norm3 0 5 0) (5 / norm3 0 5 0)
      (0 / norm3 0 5 0) ≠ 0 ∧
    (1 / Real.sqrt 2 : ℝ) ^ 2 + (-(1 / Real.sqrt 2) : ℝ) ^ 2 + (0 : ℝ) ^ 2
      + (0 : ℝ) ^ 2 = 1 := by
  have h1 : norm3 0 5 0 ≠ 0 := by rw [norm3_050]; norm_num
  have h2 : gradNorm (Madgwick.init 0.1).q0 (Madgwick.init 0.1).q1
      (Madgwick.init 0.1).q2 (Madgwick.init 0.1).q3 (0 / norm3 0 5 0)
      (5 / norm3 0 5 0) (0 / norm3 0 5 0) ≠ 0 := by
    rw [norm3_050]
    show gradNorm 1 0 0 0 ((0 : ℝ) / 5) (5 / 5) (0 / 5) ≠ 0
    rw [gradNorm_identity_y]
    norm_num
  exact ⟨h1, h2, updateIMU_unit_norm (Madgwick.init 0.1) 0 0 0 0 5 0 10 h1 h2
    ⟨0.1, 1 / Real.sqrt 2, -(1 / Real.sqrt 2), 0, 0⟩ updateIMU_identity_y⟩

/-- C1 counterexample: the filter state passed to updateIMU is created afresh for
every sample of the batch. For the sample read at 10000 ms with gyro (0,0,0) and
accel (0,5,0) (previous timestamp 0, so dt = 10), the Update produces a state whose
q1 component is negative, while the filter state used for the next sample, read at
20000 ms, has q1 component 0 and is again the default identity state: the Update
for the next sample does not start from the state this Update produced. -/
theorem filter_state_not_persisted :
    (((10000 : Int) - 0 : Int) : ℝ) / 1000 = 10 ∧
    (filterBeforeUpdate ⟨0, 0, 0, 0, 5, 0, 0, 0, 0, 25, 10000⟩).updateIMU 0 0 0 0 5 0 10
      = some ⟨0.1, 1 / Real.sqrt 2, -(1 / Real.sqrt 2), 0, 0⟩ ∧
    (Madgwick.mk 0.1 (1 / Real.sqrt 2) (-(1 / Real.sqrt 2)) 0 0).q1 < 0 ∧
    (filterBeforeUpdate ⟨0, 0, 0, 0, 5, 0, 0, 0, 0, 25, 20000⟩).q1 = 0 ∧
    filterBeforeUpdate ⟨0, 0, 0, 0, 5, 0, 0, 0, 0, 25, 20000⟩ = Madgwick.init 0.1 := by
  refine ⟨by norm_num, updateIMU_identity_y, ?_, rfl, rfl⟩
  show -(1 / Real.sqrt 2) < 0
  rw [neg_lt_zero]
  positivity

/-- C1 amended: a fresh orientation filter with gain 0.1 and the default identity
quaternion (1,0,0,0) is created for every sample of every batch, so every Update
starts from the identity state, independent of all preceding samples. -/
theorem filter_fresh_per_sample (smp smp2 : RawSample) :
    filterBeforeUpdate smp = ⟨0.1, 1, 0, 0, 0⟩ ∧
    filterBeforeUpdate smp = filterBeforeUpdate smp2 :=
  ⟨rfl, rfl⟩

/-- C4: the tally update increments by exactly one the slot of every index whose
score equals the maximum of the score vector, and increments no other slot. -/
theorem tally_increments_every_max (category : List ℕ) (score : List ℝ)
    (hlen : category.length = score.length) :
    (∀ i, i < score.length →
      (tallyUpdate category score).getD i 0
        = category.getD i 0 + (if score.getD i 0 = maxOf score then 1 else 0)) ∧
    (score ≠ [] → maxOf score ∈ score ∧ ∀ x ∈ score, x ≤ maxOf score) := by
  constructor
  · intro i hi
    have h1 : i < category.length := by rw [hlen]; exact hi
    rw [tallyUpdate, getD_zipWith _ category score 0 0 0 i h1 hi]
    by_cases h : score.getD i 0 = maxOf score
    · simp only [h, if_pos]
    · simp only [h, if_neg, not_false_iff, if_false]
      omega
  · intro h
    exact ⟨maxOf_mem h, fun x hx => le_maxOf hx⟩

lemma maxOf_tie_list : maxOf ([0, 0, 0, 0, 2, 2, 0] : List ℝ) = 2 := by
  show List.foldl max 0 [0, 0, 0, 2, 2, 0] = 2
  simp only [List.foldl]
  norm_num [max_def]

/-- C4 witness: score [0,0,0,0,2,2,0] against the zero tally increments exactly
slots 4 and 5, by one each: one sample adds two votes. -/
theorem tally_increments_every_max_witness :
    (([0, 0, 0, 0, 0, 0, 0] : List ℕ).length = ([0, 0, 0, 0, 2, 2, 0] : List ℝ).length) ∧
    (∀ i, i < ([0, 0, 0, 0, 2, 2, 0] : List ℝ).length →
      (tallyUpdate [0, 0, 0, 0, 0, 0, 0] [0, 0, 0, 0, 2, 2, 0]).getD i 0
        = ([0, 0, 0, 0, 0, 0, 0] : List ℕ).getD i 0 +
          (if ([0, 0, 0, 0, 2, 2, 0] : List ℝ).getD i 0
              = maxOf ([0, 0, 0, 0, 2, 2, 0] : List ℝ) then 1 else 0)) ∧
    tallyUpdate [0, 0, 0, 0, 0, 0, 0] [0, 0, 0, 0, 2, 2, 0] = [0, 0, 0, 0, 1, 1, 0] := by
  refine ⟨by norm_num,
    (tally_increments_every_max [0, 0, 0, 0, 0, 0, 0] [0, 0, 0, 0, 2, 2, 0]
      (by norm_num)).1, ?_⟩
  unfold tallyUpdate
  rw [maxOf_tie_list]
  simp only [List.zipWith]
  norm_num

/-- C5: when the batch loop completes and yields a tally, the resolved winner is the
lowest index whose tally slot equals the maximum tally (first match wins on ties),
and the batch label is that index mapped through the activity mapper. -/
theorem vote_resolution (M : Models) (n : ℕ) (reads : List (Option RawSample))
    (lastTime : Int) (cat : List ℕ)
    (h : runBatch M n reads lastTime (List.replicate 7 0) = some cat) :
    resolveIndex cat < cat.length ∧
    cat.getD (resolveIndex cat) 0 = maxOf cat ∧
    (∀ j, j < resolveIndex cat → cat.getD j 0 ≠ maxOf cat) ∧
    finishBatch cat = mapper (resolveIndex cat) := by
  have hlen : cat.length = 7 :=
    runBatch_length M n reads lastTime (List.replicate 7 0) cat (by simp) h
  have hne : cat ≠ [] := by
    intro h0; rw [h0] at hlen; simp at hlen
  have hmem : maxOf cat ∈ cat := maxOf_mem hne
  have hex : ∃ x ∈ cat, (x == maxOf cat) = true := ⟨maxOf cat, hmem, by simp⟩
  have hlt : cat.findIdx (fun c => c == maxOf cat) < cat.length :=
    List.findIdx_lt_length_of_exists hex
  refine ⟨hlt, ?_, ?_, rfl⟩
  · have hp : ((fun c => c == maxOf cat)
        (cat.get ⟨cat.findIdx (fun c => c == maxOf cat), hlt⟩)) = true :=
      @List.findIdx_getElem ℕ (fun c => c == maxOf cat) cat hlt
    rw [resolveIndex, List.getD_eq_getElem _ _ hlt]
    exact eq_of_beq hp
  · intro j hj
    have hjlen : j < cat.length := lt_trans hj hlt
    have hfalse : ((fun c => c == maxOf cat) (cat.get ⟨j, hjlen⟩)) = false :=
      List.not_of_lt_findIdx hj
    rw [List.getD_eq_getElem _ _ hjlen]
    intro heq
    have hg : cat.get ⟨j, hjlen⟩ = maxOf cat := by
      rw [List.get_eq_getElem]; exact heq
    simp only [hg] at hfalse
    simp at hfalse

lemma cascade_modelsSit (X : List ℝ) : cascade modelsSit X = [0, 0, 0, 0, 1, 0, 0] :=
  (cascade_routing modelsSit X).1 (by norm_num : (1 : ℝ) ≥ 0)

lemma maxOf_sit_list : maxOf ([0, 0, 0, 0, 1, 0, 0] : List ℝ) = 1 := by
  show List.foldl max 0 [0, 0, 0, 1, 0, 0] = 1
  simp only [List.foldl]
  norm_num [max_def]

lemma tallyUpdate_sit :
    tallyUpdate (List.replicate 7 0) [0, 0, 0, 0, 1, 0, 0] = [0, 0, 0, 0, 1, 0, 0] := by
  unfold tallyUpdate
  rw [maxOf_sit_list]
  show List.zipWith _ [0, 0, 0, 0, 0, 0, 0] _ = _
  simp only [List.zipWith]
  norm_num

lemma processSample_sit :
    processSample modelsSit ⟨0, 0, 0, 0, 0, 0, 0, 0, 0, 25, 1000⟩ 0 (List.replicate 7 0)
      = some [0, 0, 0, 0, 1, 0, 0] := by
  unfold processSample
  have hup : (filterBeforeUpdate ⟨0, 0, 0, 0, 0, 0, 0, 0, 0, 25, 1000⟩).updateIMU
      0 0 0 0 0 0 ((((1000 : Int) - 0 : Int) : ℝ) / 1000) = some (Madgwick.init 0.1) :=
    (updateIMU_noop (Madgwick.init 0.1) 0 0 0 0 0 0 _).1 (by unfold norm3; norm_num)
  rw [hup]
  dsimp only
  rw [cascade_modelsSit, tallyUpdate_sit]

lemma runBatch_sit :
    runBatch modelsSit 1 [some ⟨0, 0, 0, 0, 0, 0, 0, 0, 0, 25, 1000⟩] 0
      (List.replicate 7 0) = some [0, 0, 0, 0, 1, 0, 0] := by
  show runBatch modelsSit (0 + 1) (some ⟨0, 0, 0, 0, 0, 0, 0, 0, 0, 25, 1000⟩ :: []) 0
      (List.replicate 7 0) = some [0, 0, 0, 0, 1, 0, 0]
  simp only [runBatch]
  rw [processSample_sit]

/-- C5 witness: a completed one-sample batch with constant collaborators yields the
tally [0,0,0,0,1,0,0], whose winner is index 4 and label Sitting; and the tally
[5,5,3,0,0,0,0] of the specification example resolves to index 0 and Walking. -/
theorem vote_resolution_witness :
    (resolveIndex [0, 0, 0, 0, 1, 0, 0] < ([0, 0, 0, 0, 1, 0, 0] : List ℕ).length ∧
      ([0, 0, 0, 0, 1, 0, 0] : List ℕ).getD (resolveIndex [0, 0, 0, 0, 1, 0, 0]) 0
        = maxOf ([0, 0, 0, 0, 1, 0, 0] : List ℕ) ∧
      (∀ j, j < resolveIndex [0, 0, 0, 0, 1, 0, 0] →
        ([0, 0, 0, 0, 1, 0, 0] : List ℕ).getD j 0 ≠ maxOf ([0, 0, 0, 0, 1, 0, 0] : List ℕ)) ∧
      finishBatch [0, 0, 0, 0, 1, 0, 0] = mapper (resolveIndex [0, 0, 0, 0, 1, 0, 0])) ∧
    resolveIndex [0, 0, 0, 0, 1, 0, 0] = 4 ∧
    finishBatch [0, 0, 0, 0, 1, 0, 0] = "Sitting" ∧
    resolveIndex [5, 5, 3, 0, 0, 0, 0] = 0 ∧
    finishBatch [5, 5, 3, 0, 0, 0, 0] = "Walking" :=
  ⟨vote_resolution modelsSit 1 [some ⟨0, 0, 0, 0, 0, 0, 0, 0, 0, 25, 1000⟩] 0
      [0, 0, 0, 0, 1, 0, 0] runBatch_sit,
   by decide, by decide, by decide, by decide⟩

/-- C7: a failing sample read aborts the batch immediately with no later read
consumed (the result is independent of every pending read after the failure), and
whenever the batch loop aborts, get_prediction returns the sentinel Sensor Error
rather than any label derived from the partial tally. -/
theorem read_failure_aborts (M : Models) (n : ℕ)
    (rest rest2 : List (Option RawSample)) (lastTime : Int) (category : List ℕ)
    (reads : List (Option RawSample)) :
    runBatch M (n + 1) (none :: rest) lastTime category = none ∧
    runBatch M (n + 1) (none :: rest) lastTime category
      = runBatch M (n + 1) (none :: rest2) lastTime category ∧
    (runBatch M 30 reads lastTime (List.replicate 7 0) = none →
      getPrediction true true M lastTime reads = "Sensor Error") := by
  refine ⟨rfl, rfl, fun h => ?_⟩
  unfold getPrediction
  rw [if_neg (by simp), if_neg (by simp), h]

/-- C7 witness: a batch whose first read fails returns none, and get_prediction
surfaces Sensor Error for it. -/
theorem read_failure_aborts_witness :
    runBatch modelsSteadyTie 30 (List.replicate 30 none) 0 (List.replicate 7 0)
      = none ∧
    getPrediction true true modelsSteadyTie 0 (List.replicate 30 none)
      = "Sensor Error" := by
  have h1 : runBatch modelsSteadyTie 30 (List.replicate 30 none) 0
      (List.replicate 7 0) = none :=
    (read_failure_aborts modelsSteadyTie 29 (List.replicate 29 none)
      (List.replicate 29 none) 0 (List.replicate 7 0) (List.replicate 30 none)).1
  exact ⟨h1, (read_failure_aborts modelsSteadyTie 29 (List.replicate 29 none)
    (List.replicate 29 none) 0 (List.replicate 7 0) (List.replicate 30 none)).2.2 h1⟩

lemma mapper_mem (i : ℕ) (h : i < 7) :
    mapper i ∈ (["Walking", "Jogging", "Downstairs", "Upstairs", "Sitting", "Standing",
      "Sleeping", "Device OFF", "Sensor Error"] : List String) := by
  interval_cases i <;> simp [mapper]

/-- C9: every get_prediction call returns one of the seven activity labels or one of
the sentinels Device OFF and Sensor Error, and never the Unknown default of the
mapper, because a resolved winning index always lies in 0..6. -/
theorem getPrediction_range (sensorsInitialized deviceOn : Bool) (M : Models)
    (lastTime : Int) (reads : List (Option RawSample)) :
    getPrediction sensorsInitialized deviceOn M lastTime reads ∈
      (["Walking", "Jogging", "Downstairs", "Upstairs", "Sitting", "Standing",
        "Sleeping", "Device OFF", "Sensor Error"] : List String) ∧
    getPrediction sensorsInitialized deviceOn M lastTime reads ≠ "Unknown" := by
  have key : getPrediction sensorsInitialized deviceOn M lastTime reads ∈
      (["Walking", "Jogging", "Downstairs", "Upstairs", "Sitting", "Standing",
        "Sleeping", "Device OFF", "Sensor Error"] : List String) := by
    unfold getPrediction
    by_cases h1 : sensorsInitialized = false
    · rw [if_pos h1]; simp
    · rw [if_neg h1]
      by_cases h2 : deviceOn = false
      · rw [if_pos h2]; simp
      · rw [if_neg h2]
        cases hr : runBatch M 30 reads lastTime (List.replicate 7 0) with
        | none => simp
        | some cat =>
            have hlen : cat.length = 7 :=
              runBatch_length M 30 reads lastTime (List.replicate 7 0) cat (by simp) hr
            have hne : cat ≠ [] := by
              intro h0; rw [h0] at hlen; simp at hlen
            have hlt : resolveIndex cat < 7 := by
              rw [← hlen]
              exact List.findIdx_lt_length_of_exists
                ⟨maxOf cat, maxOf_mem hne, by simp⟩
            exact mapper_mem (resolveIndex cat) hlt
  refine ⟨key, fun hu => ?_⟩
  rw [hu] at key
  exact absurd key (by decide)

/-- C9 witness: a concrete call (sensors uninitialized) lands in the allowed result
set and is not Unknown. -/
theorem getPrediction_range_witness :
    getPrediction false true modelsSit 0 [] ∈
      (["Walking", "Jogging", "Downstairs", "Upstairs", "Sitting", "Standing",
        "Sleeping", "Device OFF", "Sensor Error"] : List String) ∧
    getPrediction false true modelsSit 0 [] ≠ "Unknown" :=
  getPrediction_range false true modelsSit 0 []

end HAR
